import Mathlib

/-!
Verification development for the FPL scoring-reconstruction dashboard
(src/dashboard.py).  The scoring engine is embedded shallowly:

* `StatRecord` is one weekly history row of the provider feed (one
  player-gameweek observation).  Count-valued fields are `ℕ` (the feed
  supplies non-negative counts, so Python's floor division `//` on them
  coincides with `Nat` division); the authoritative weekly total
  `total_points` may be negative and is `ℤ`.
* `build_points_contribution` embeds the function of the same name
  (dashboard.py lines 363-495): per-record category points, the
  position-dependent allowed-category lists, the empty-history branch,
  and the percentage column with its `total > 0` guard.  Exact rational
  arithmetic stands in for Python floats; `round1` models pandas
  `.round(1)` (tie-breaking of exact halves is below the resolution of
  this embedding and is modelled as ordinary rounding).
* `compareCats` / `cellPoints` / `rowMax2` / `star2` embed the
  comparison-table construction of `show_overlay` (lines 713-745):
  the category column comes from the first breakdown only, cells are
  addressed positionally by row index, and a row's star goes to a cell
  holding the row maximum provided it is nonzero.
* `barCategories` / `barValue` embed `build_contrib_bar` (lines
  501-527): the sorted union of the category lists, with 0.0 for a
  category absent from a breakdown.
* `gwWindow` / `gwPoints` / `gwPcts` / `highOutlierFlag` embed
  `build_gw_breakdown` (lines 533-564): inclusive gameweek filtering,
  sort by round (pandas `sort_values`; modelled by an insertion sort —
  the claims below are order-insensitive), the `total > 0` guard on the
  percentage column, and the high-outlier flag.  The code flags a week
  when `z >= 1.5` with `z = (points - mean)/std`, `std` the population
  standard deviation (`ddof=0`); since `Real.sqrt` is noncomputable,
  `highOutlierFlag` renders that test in exact arithmetic by squaring
  (sound: both sides of `1.5 * std <= points - mean` are compared only
  after the sign of `points - mean` is checked), and the theorem for
  claim C7 proves this rendering equivalent to the real-valued z-score
  test.
-/

namespace FPL

/-- One weekly history row, as consumed by the dashboard.  Field order:
round, total_points, minutes, goals_scored, assists, clean_sheets,
goals_conceded, yellow_cards, red_cards, own_goals, saves,
penalties_saved, penalties_missed, bonus, defensive_contribution. -/
structure StatRecord where
  round : ℤ
  total_points : ℤ
  minutes : ℕ
  goals_scored : ℕ
  assists : ℕ
  clean_sheets : ℕ
  goals_conceded : ℕ
  yellow_cards : ℕ
  red_cards : ℕ
  own_goals : ℕ
  saves : ℕ
  penalties_saved : ℕ
  penalties_missed : ℕ
  bonus : ℕ
  defensive_contribution : ℕ
deriving Repr, DecidableEq

/-- Base categories always shown (dashboard.py line 371). -/
def baseCategories : List String :=
  ["Minutes", "Goals", "Assists", "Bonus", "Cards", "Own Goals"]

/-- Position-specific category lists (dashboard.py lines 374-399).  An
unrecognized position falls through every branch and keeps only the base
categories — the code raises no error. -/
def allowedCategories (position : String) : List String :=
  if position = "GK" then
    baseCategories ++ ["Clean Sheets", "Goals Conceded", "Saves", "Penalty Saves", "Penalty Misses"]
  else if position = "DEF" then
    baseCategories ++ ["Clean Sheets", "Goals Conceded", "Penalty Misses", "Defensive Contribution"]
  else if position = "MID" then
    baseCategories ++ ["Clean Sheets", "Penalty Misses", "Defensive Contribution"]
  else if position = "FWD" then
    baseCategories ++ ["Penalty Misses", "Defensive Contribution"]
  else
    baseCategories

/-- Minutes points per record (line 426): 1 point if 0 < minutes < 60,
2 points if minutes >= 60. -/
def minutesPoints (r : StatRecord) : ℤ :=
  (if 0 < r.minutes ∧ r.minutes < 60 then 1 else 0) + (if 60 ≤ r.minutes then 2 else 0)

/-- Goal multiplier (line 429): dict lookup with default 0 for an
unrecognized position. -/
def goalPointsMap (position : String) : ℤ :=
  if position = "GK" then 10
  else if position = "DEF" then 6
  else if position = "MID" then 5
  else if position = "FWD" then 4
  else 0

/-- Goals points per record (line 430). -/
def goalsPoints (position : String) (r : StatRecord) : ℤ :=
  (r.goals_scored : ℤ) * goalPointsMap position

/-- Assist points per record (line 433). -/
def assistPoints (r : StatRecord) : ℤ := (r.assists : ℤ) * 3

/-- Clean-sheet points per record (lines 436-442): the mask requires
minutes >= 60 and clean_sheets > 0; GK/DEF get 4, MID 1, others 0. -/
def csPoints (position : String) (r : StatRecord) : ℤ :=
  if position = "GK" ∨ position = "DEF" then
    (if 60 ≤ r.minutes ∧ 0 < r.clean_sheets then 4 else 0)
  else if position = "MID" then
    (if 60 ≤ r.minutes ∧ 0 < r.clean_sheets then 1 else 0)
  else 0

/-- Goals-conceded points per record (lines 445-448): GK/DEF lose
`goals_conceded // 2` points per row (floor division applied per match,
before summing); other positions get 0. -/
def gcPoints (position : String) (r : StatRecord) : ℤ :=
  if position = "GK" ∨ position = "DEF" then -((r.goals_conceded / 2 : ℕ) : ℤ)
  else 0

/-- Save points per record (line 451): `saves // 3` points. -/
def savePoints (r : StatRecord) : ℤ := ((r.saves / 3 : ℕ) : ℤ) * 1

/-- Penalty-save points per record (line 452). -/
def penSavePoints (r : StatRecord) : ℤ := (r.penalties_saved : ℤ) * 5

/-- Penalty-miss points per record (line 453). -/
def penMissPoints (r : StatRecord) : ℤ := (r.penalties_missed : ℤ) * (-2)

/-- Card points per record (line 456). -/
def cardPoints (r : StatRecord) : ℤ :=
  (r.yellow_cards : ℤ) * (-1) + (r.red_cards : ℤ) * (-3)

/-- Own-goal points per record (line 459). -/
def ogPoints (r : StatRecord) : ℤ := (r.own_goals : ℤ) * (-2)

/-- Defensive-contribution points per record (lines 462-467):
`(dc // threshold).clip(upper=1) * 2` with threshold 10 for DEF and 12
for MID/FWD; 0 for any other position. -/
def dcPoints (position : String) (r : StatRecord) : ℤ :=
  if position = "DEF" then ((min (r.defensive_contribution / 10) 1 : ℕ) : ℤ) * 2
  else if position = "MID" ∨ position = "FWD" then
    ((min (r.defensive_contribution / 12) 1 : ℕ) : ℤ) * 2
  else 0

/-- Full contribution map (lines 470-483): category name to the sum of
its per-record points over the history window. -/
def rawContrib (position : String) (records : List StatRecord) (cat : String) : ℤ :=
  if cat = "Minutes" then (records.map minutesPoints).sum
  else if cat = "Goals" then (records.map (goalsPoints position)).sum
  else if cat = "Assists" then (records.map assistPoints).sum
  else if cat = "Clean Sheets" then (records.map (csPoints position)).sum
  else if cat = "Goals Conceded" then (records.map (gcPoints position)).sum
  else if cat = "Defensive Contribution" then (records.map (dcPoints position)).sum
  else if cat = "Cards" then (records.map cardPoints).sum
  else if cat = "Saves" then (records.map savePoints).sum
  else if cat = "Penalty Saves" then (records.map penSavePoints).sum
  else if cat = "Penalty Misses" then (records.map penMissPoints).sum
  else if cat = "Own Goals" then (records.map ogPoints).sum
  else if cat = "Bonus" then (records.map (fun r => (r.bonus : ℤ))).sum
  else 0

/-- Authoritative total over a window: the sum of the provider-supplied
weekly totals (line 408). -/
def totalPoints (records : List StatRecord) : ℤ :=
  (records.map (fun r => r.total_points)).sum

/-- Rounding to one decimal place, modelling pandas `.round(1)`. -/
def round1 (q : ℚ) : ℚ := ((round (q * 10) : ℤ) : ℚ) / 10

/-- Output of `build_points_contribution`: the Category/Points rows, the
parallel `% of Total` column, and the returned total. -/
structure Breakdown where
  rows : List (String × ℤ)
  pcts : List ℚ
  total : ℤ
deriving Repr, DecidableEq

/-- Embedding of `build_points_contribution` (dashboard.py lines
363-495).  Empty history yields a zero row for each allowed category
with percentage 0.0 and total 0; otherwise each allowed category gets
its summed points, and the percentage column is computed only under the
`total_points > 0` guard (line 490), else 0.0. -/
def build_points_contribution (records : List StatRecord) (position : String) : Breakdown :=
  let allowed := allowedCategories position
  if records.isEmpty then
    ⟨allowed.map (fun c => (c, 0)), allowed.map (fun _ => 0), 0⟩
  else
    let total := totalPoints records
    let rows := allowed.map (fun c => (c, rawContrib position records c))
    let pcts := rows.map (fun p =>
      if 0 < total then round1 ((p.2 : ℚ) / (total : ℚ) * 100) else 0)
    ⟨rows, pcts, total⟩

/-- Category column of a breakdown (`df["Category"].tolist()`). -/
def cats (b : Breakdown) : List String := b.rows.map Prod.fst

/-- Points of a named category row, by label lookup. -/
def catPoints (b : Breakdown) (c : String) : Option ℤ := b.rows.lookup c

/-- Percentage of a named category row, by label lookup in the zipped
Category / `% of Total` columns. -/
def catPct (b : Breakdown) (c : String) : Option ℚ :=
  ((b.rows.map Prod.fst).zip b.pcts).lookup c

/-- Category column of the two-player comparison table (line 714):
`cats = contrib_dfs[0]["Category"].tolist()` — only the FIRST breakdown
is consulted. -/
def compareCats (a _b : Breakdown) : List String := cats a

/-- Positional cell access used by the comparison table (line 719):
`contrib_dfs[i]["Points"].iloc[row_i]`; `none` models the IndexError on
an out-of-range row. -/
def cellPoints (b : Breakdown) (r : ℕ) : Option ℤ := (b.rows[r]?).map Prod.snd

/-- Row maximum over the two compared breakdowns (line 722). -/
def rowMax2 (a b : Breakdown) (r : ℕ) : Option ℤ :=
  match cellPoints a r, cellPoints b r with
  | some x, some y => some (max x y)
  | _, _ => none

/-- Gold-star rule of the comparison table (line 738): side `first`
(true = first player) is starred in row `r` when its points equal the
row maximum and are nonzero. -/
def star2 (a b : Breakdown) (first : Bool) (r : ℕ) : Bool :=
  match rowMax2 a b r, cellPoints (cond first a b) r with
  | some m, some p => decide (p = m) && decide (p ≠ 0)
  | _, _ => false

/-- Insertion step for sorting category names (Python `sorted`). -/
def insertStr (c : String) : List String → List String
  | [] => [c]
  | d :: rest => if c < d then c :: d :: rest else d :: insertStr c rest

/-- Sorting a list of category names (Python `sorted`). -/
def sortStrings : List String → List String
  | [] => []
  | c :: rest => insertStr c (sortStrings rest)

/-- Category axis of the grouped bar chart (lines 503-506): sorted union
of the category lists of all breakdowns. -/
def barCategories (dfs : List Breakdown) : List String :=
  sortStrings ((dfs.map cats).flatten.dedup)

/-- Bar value of one breakdown in one category (line 511): the category
row's points when present, else 0.0. -/
def barValue (b : Breakdown) (c : String) : ℚ :=
  match b.rows.lookup c with
  | some p => (p : ℚ)
  | none => 0

/-- Insertion step for sorting records by round. -/
def insertByRound (r : StatRecord) : List StatRecord → List StatRecord
  | [] => [r]
  | s :: rest => if r.round ≤ s.round then r :: s :: rest else s :: insertByRound r rest

/-- Sort records by gameweek ascending (`df.sort_values("round")`,
line 538; modelled by an insertion sort — the properties proved below
are insensitive to the ordering). -/
def sortByRound : List StatRecord → List StatRecord
  | [] => []
  | r :: rest => insertByRound r (sortByRound rest)

/-- Inclusive gameweek filtering plus sort (lines 534-538). -/
def gwWindow (hist : List StatRecord) (gw1 gw2 : ℤ) : List StatRecord :=
  sortByRound (hist.filter (fun r => decide (gw1 ≤ r.round) && decide (r.round ≤ gw2)))

/-- Weekly points column of the gameweek-breakdown table (line 540). -/
def gwPoints (hist : List StatRecord) (gw1 gw2 : ℤ) : List ℤ :=
  (gwWindow hist gw1 gw2).map (fun r => r.total_points)

/-- Per-gameweek share of the range total (lines 542-546): computed only
under the `total > 0` guard, else a zero column. -/
def gwPcts (hist : List StatRecord) (gw1 gw2 : ℤ) : List ℚ :=
  let pts := gwPoints hist gw1 gw2
  let total := pts.sum
  if 0 < total then pts.map (fun p => (p : ℚ) / (total : ℚ) * 100)
  else pts.map (fun _ => 0)

/-- Population mean of the weekly points (pandas `.mean()`). -/
def popMean (xs : List ℤ) : ℚ := ((xs.sum : ℤ) : ℚ) / (xs.length : ℚ)

/-- Population variance, divisor N (pandas `.std(ddof=0)` squared). -/
def popVar (xs : List ℤ) : ℚ :=
  ((xs.map (fun x => ((x : ℚ) - popMean xs) ^ 2)).sum) / (xs.length : ℚ)

/-- High-outlier flag of one week (lines 551-562).  The code computes
`z = (x - mean)/std` when `std != 0` (else `z = 0`) and flags `z >= 1.5`
with `std` the real square root of `popVar`; this decidable rendering
squares the comparison (`popVar != 0`, `x - mean >= 0`, and
`9*popVar <= 4*(x - mean)^2`), which the theorem for claim C7 proves
equivalent to the real-valued test. -/
def highOutlierFlag (xs : List ℤ) (x : ℤ) : Bool :=
  decide (popVar xs ≠ 0) && decide (popMean xs ≤ (x : ℚ)) &&
    decide (9 * popVar xs ≤ 4 * ((x : ℚ) - popMean xs) ^ 2)

/-- Real-valued z-score threshold test of the spec, `z >= 1.5`, with the
code's convention that a zero standard deviation yields `z = 0`.  Field
`std` is the real square root of the population variance. -/
def zScoreTest (xs : List ℤ) (x : ℤ) : Prop :=
  (3 : ℝ)/2 ≤ (if Real.sqrt ((popVar xs : ℚ) : ℝ) = 0 then (0 : ℝ)
    else ((x : ℝ) - ((popMean xs : ℚ) : ℝ)) / Real.sqrt ((popVar xs : ℚ) : ℝ))

/-- Real-valued low-outlier condition of the spec, `z <= -1.5`. -/
def lowZScore (xs : List ℤ) (x : ℤ) : Prop :=
  ((x : ℝ) - ((popMean xs : ℚ) : ℝ)) / Real.sqrt ((popVar xs : ℚ) : ℝ) ≤ -((3 : ℝ)/2)

/-- Record with only an authoritative weekly total (7), no attributable
stats.  Field order as documented on `StatRecord`. -/
def recTotalOnly : StatRecord := ⟨1, 7, 0, 0, 0, 0, 0, 0, 0, 0, 0, 0, 0, 0, 0⟩

/-- Record with 90 minutes and one goal, weekly total 9. -/
def recGoal : StatRecord := ⟨1, 9, 90, 1, 0, 0, 0, 0, 0, 0, 0, 0, 0, 0, 0⟩

/-- Record with one yellow card and weekly total -1. -/
def recCard : StatRecord := ⟨1, -1, 0, 0, 0, 0, 0, 1, 0, 0, 0, 0, 0, 0, 0⟩

/-- Record with one yellow card and weekly total 10. -/
def recCardTen : StatRecord := ⟨1, 10, 0, 0, 0, 0, 0, 1, 0, 0, 0, 0, 0, 0, 0⟩

/-- Record with exactly one goal conceded. -/
def recConceded : StatRecord := ⟨1, 0, 0, 0, 0, 0, 1, 0, 0, 0, 0, 0, 0, 0, 0⟩

/-- Record with one penalty missed, weekly total 3. -/
def recPenMiss : StatRecord := ⟨1, 3, 0, 0, 0, 0, 0, 0, 0, 0, 0, 0, 1, 0, 0⟩

/-- Record with a negative weekly total (-2), no attributable stats. -/
def recNegTotal : StatRecord := ⟨1, -2, 0, 0, 0, 0, 0, 0, 0, 0, 0, 0, 0, 0, 0⟩

/-- Five-week history carrying the spec's outlier example: weekly totals
2, 2, 2, 2, 20 in gameweeks 1-5. -/
def outlierHist : List StatRecord :=
  [⟨1, 2, 0, 0, 0, 0, 0, 0, 0, 0, 0, 0, 0, 0, 0⟩,
   ⟨2, 2, 0, 0, 0, 0, 0, 0, 0, 0, 0, 0, 0, 0, 0⟩,
   ⟨3, 2, 0, 0, 0, 0, 0, 0, 0, 0, 0, 0, 0, 0, 0⟩,
   ⟨4, 2, 0, 0, 0, 0, 0, 0, 0, 0, 0, 0, 0, 0, 0⟩,
   ⟨5, 20, 0, 0, 0, 0, 0, 0, 0, 0, 0, 0, 0, 0, 0⟩]

/-! Helper lemmas about the embedded definitions. -/

/-- Label lookup in a list of pairs built over distinct-or-not keys by a
function: the result is the function's value at the key when the key
occurs. -/
theorem lookup_map_mk {β : Type} (l : List String) (f : String → β) (c : String) :
    (l.map (fun x => (x, f x))).lookup c = if c ∈ l then some (f c) else none := by
  induction l with
  | nil => simp
  | cons a t ih =>
      by_cases h : c = a
      · subst h
        simp [List.lookup]
      · have hba : (c == a) = false := beq_eq_false_iff_ne.mpr h
        simp [List.lookup, h, hba, ih]

/-- Zipping a list with its own image is mapping into pairs. -/
theorem zip_map_self {α β : Type} (l : List α) (g : α → β) :
    l.zip (l.map g) = l.map (fun x => (x, g x)) := by
  induction l with
  | nil => rfl
  | cons a t ih => simp [ih]

/-- Every category sums to 0 over an empty history. -/
theorem rawContrib_nil (position c : String) : rawContrib position [] c = 0 := by
  simp [rawContrib]

/-- The rows of a breakdown are the allowed categories paired with their
summed contributions (the empty-history branch agrees because every sum
over `[]` is 0). -/
theorem build_rows (records : List StatRecord) (position : String) :
    (build_points_contribution records position).rows
      = (allowedCategories position).map (fun c => (c, rawContrib position records c)) := by
  by_cases h : records.isEmpty
  · have hr : records = [] := List.isEmpty_iff.mp h
    subst hr
    simp [build_points_contribution, rawContrib_nil]
  · simp [build_points_contribution, h]

/-- The returned total is always the authoritative window total. -/
theorem build_total (records : List StatRecord) (position : String) :
    (build_points_contribution records position).total = totalPoints records := by
  by_cases h : records.isEmpty
  · have hr : records = [] := List.isEmpty_iff.mp h
    subst hr
    simp [build_points_contribution, totalPoints]
  · simp [build_points_contribution, h]

/-- The percentage column, expressed per allowed category. -/
theorem build_pcts (records : List StatRecord) (position : String) :
    (build_points_contribution records position).pcts
      = (allowedCategories position).map (fun c =>
          if 0 < totalPoints records then
            round1 ((rawContrib position records c : ℚ) / (totalPoints records : ℚ) * 100)
          else 0) := by
  by_cases h : records.isEmpty
  · have hr : records = [] := List.isEmpty_iff.mp h
    subst hr
    simp [build_points_contribution, totalPoints]
  · simp [build_points_contribution, h, List.map_map, Function.comp]

/-- The category column of a breakdown is the allowed-category list. -/
theorem rows_map_fst (records : List StatRecord) (position : String) :
    (build_points_contribution records position).rows.map Prod.fst
      = allowedCategories position := by
  rw [build_rows, List.map_map]
  have hc : (Prod.fst ∘ fun c : String => (c, rawContrib position records c))
      = fun c : String => c := by
    funext c
    rfl
  rw [hc, List.map_id']

/-- The category column of a breakdown is the allowed-category list. -/
theorem cats_build (records : List StatRecord) (position : String) :
    cats (build_points_contribution records position) = allowedCategories position :=
  rows_map_fst records position

/-- Points of a named category row. -/
theorem catPoints_build (records : List StatRecord) (position c : String) :
    catPoints (build_points_contribution records position) c
      = if c ∈ allowedCategories position then some (rawContrib position records c)
        else none := by
  rw [catPoints, build_rows, lookup_map_mk]

/-- Percentage of a named category row. -/
theorem catPct_build (records : List StatRecord) (position c : String) :
    catPct (build_points_contribution records position) c
      = if c ∈ allowedCategories position then
          some (if 0 < totalPoints records then
            round1 ((rawContrib position records c : ℚ) / (totalPoints records : ℚ) * 100)
          else 0)
        else none := by
  rw [catPct, rows_map_fst, build_pcts, zip_map_self, lookup_map_mk]

/-- No position's category list mentions an Unattributed row. -/
theorem unattributed_not_mem (position : String) :
    ("Unattributed") ∉ allowedCategories position := by
  by_cases h1 : position = "GK"
  · subst h1; decide
  by_cases h2 : position = "DEF"
  · subst h2; decide
  by_cases h3 : position = "MID"
  · subst h3; decide
  by_cases h4 : position = "FWD"
  · subst h4; decide
  unfold allowedCategories
  rw [if_neg h1, if_neg h2, if_neg h3, if_neg h4]
  decide

/-- Saves and Penalty Saves are goalkeeper-only categories. -/
theorem saves_not_mem (position : String) (h : position ≠ "GK") :
    ("Saves") ∉ allowedCategories position ∧ ("Penalty Saves") ∉ allowedCategories position := by
  by_cases h2 : position = "DEF"
  · subst h2; decide
  by_cases h3 : position = "MID"
  · subst h3; decide
  by_cases h4 : position = "FWD"
  · subst h4; decide
  unfold allowedCategories
  rw [if_neg h, if_neg h2, if_neg h3, if_neg h4]
  decide

/-- Defender defensive-contribution points per record: 2 exactly when
the raw count reaches 10, else 0. -/
theorem dcPoints_DEF (r : StatRecord) :
    dcPoints ("DEF") r = if 10 ≤ r.defensive_contribution then 2 else 0 := by
  rcases le_or_lt 10 r.defensive_contribution with h | h
  · have h1 : min (r.defensive_contribution / 10) 1 = 1 := by
      have := (Nat.one_le_div_iff (by norm_num : 0 < 10)).mpr h
      omega
    simp [dcPoints, h1, h]
  · have h0 : r.defensive_contribution / 10 = 0 := Nat.div_eq_of_lt h
    simp [dcPoints, h0, Nat.not_le.mpr h]

/-- Midfielder defensive-contribution points per record: threshold 12. -/
theorem dcPoints_MID (r : StatRecord) :
    dcPoints ("MID") r = if 12 ≤ r.defensive_contribution then 2 else 0 := by
  rcases le_or_lt 12 r.defensive_contribution with h | h
  · have h1 : min (r.defensive_contribution / 12) 1 = 1 := by
      have := (Nat.one_le_div_iff (by norm_num : 0 < 12)).mpr h
      omega
    simp [dcPoints, h1, h]
  · have h0 : r.defensive_contribution / 12 = 0 := Nat.div_eq_of_lt h
    simp [dcPoints, h0, Nat.not_le.mpr h]

/-- Forward defensive-contribution points per record: threshold 12. -/
theorem dcPoints_FWD (r : StatRecord) :
    dcPoints ("FWD") r = if 12 ≤ r.defensive_contribution then 2 else 0 := by
  rcases le_or_lt 12 r.defensive_contribution with h | h
  · have h1 : min (r.defensive_contribution / 12) 1 = 1 := by
      have := (Nat.one_le_div_iff (by norm_num : 0 < 12)).mpr h
      omega
    simp [dcPoints, h1, h]
  · have h0 : r.defensive_contribution / 12 = 0 := Nat.div_eq_of_lt h
    simp [dcPoints, h0, Nat.not_le.mpr h]

/-- Membership through the insertion step of the category sort. -/
theorem mem_insertStr (a c : String) (l : List String) :
    a ∈ insertStr c l ↔ a = c ∨ a ∈ l := by
  induction l with
  | nil => simp [insertStr]
  | cons d t ih =>
      unfold insertStr
      by_cases h : c < d
      · simp [h]
      · rw [if_neg h]
        simp only [List.mem_cons, ih]
        tauto

/-- Sorting the category axis preserves membership. -/
theorem mem_sortStrings (a : String) (l : List String) :
    a ∈ sortStrings l ↔ a ∈ l := by
  induction l with
  | nil => simp [sortStrings]
  | cons c t ih =>
      unfold sortStrings
      rw [mem_insertStr, ih]
      simp

/-- The population variance is non-negative. -/
theorem popVar_nonneg (xs : List ℤ) : 0 ≤ popVar xs := by
  unfold popVar
  apply div_nonneg
  · apply List.sum_nonneg
    intro q hq
    simp only [List.mem_map] at hq
    obtain ⟨y, _, rfl⟩ := hq
    positivity
  · positivity

/-- Exact-arithmetic rendering of the z-score threshold: for `v` the
population variance and `d` the deviation from the mean, the test
`1.5 <= d / sqrt v` (with the zero-deviation convention) holds exactly
when `v` is nonzero, `d` is non-negative and `9 v <= 4 d^2`. -/
theorem z_test_iff (v d : ℝ) (hv : 0 ≤ v) :
    ((3 : ℝ)/2 ≤ (if Real.sqrt v = 0 then (0 : ℝ) else d / Real.sqrt v))
      ↔ (v ≠ 0 ∧ 0 ≤ d ∧ 9 * v ≤ 4 * d ^ 2) := by
  rcases eq_or_lt_of_le hv with h0 | hpos
  · rw [← h0]
    simp [Real.sqrt_zero]
  · have hs : 0 < Real.sqrt v := Real.sqrt_pos.mpr hpos
    rw [if_neg (ne_of_gt hs), le_div_iff₀ hs]
    constructor
    · intro h
      have hd : 0 ≤ d := le_trans (by positivity) h
      refine ⟨ne_of_gt hpos, hd, ?_⟩
      have hsq : (3/2 * Real.sqrt v) * (3/2 * Real.sqrt v) ≤ d * d :=
        mul_self_le_mul_self (by positivity) h
      have hv2 : Real.sqrt v * Real.sqrt v = v := Real.mul_self_sqrt hv
      nlinarith
    · rintro ⟨_, hd, h9⟩
      by_contra hlt
      push_neg at hlt
      have h2 : d * d < (3/2 * Real.sqrt v) * (3/2 * Real.sqrt v) :=
        mul_self_lt_mul_self hd hlt
      have hv2 : Real.sqrt v * Real.sqrt v = v := Real.mul_self_sqrt hv
      nlinarith

/-! Claim theorems. -/

/-- Claim C1, counterexample: for a single Forward record whose
authoritative weekly total is 7 with no attributable stats, the sum of
the displayed category rows is 0, the authoritative total is 7, and no
row named Unattributed appears — so the residual (7) is carried by no
row and the displayed rows do not sum to the authoritative total. -/
theorem C1_reconciliation_counterexample :
    (((build_points_contribution [recTotalOnly] ("FWD")).rows.map Prod.snd).sum = 0)
  ∧ ((build_points_contribution [recTotalOnly] ("FWD")).total = 7)
  ∧ (("Unattributed") ∉ cats (build_points_contribution [recTotalOnly] ("FWD")))
  ∧ ((0 : ℤ) ≠ 7) := by
  decide

/-- Claim C1, amended: the engine performs no reconciliation step.  The
total it returns is the authoritative total itself (the sum of the
per-week `total_points`), so that total plus a zero residual trivially
equals the authoritative total (0 for the empty sequence), but no
Unattributed row is ever emitted and the displayed category rows are not
adjusted to sum to the authoritative total. -/
theorem C1_reconciliation_amended (records : List StatRecord) (position : String) :
    ((build_points_contribution records position).total = totalPoints records)
  ∧ (("Unattributed") ∉ cats (build_points_contribution records position))
  ∧ ((build_points_contribution [] position).total = 0) := by
  refine ⟨build_total records position, ?_, ?_⟩
  · rw [cats_build]
    exact unattributed_not_mem position
  · simp [build_points_contribution]

/-- Claim C2, counterexample: the unrecognized position "XYZ" is not
rejected.  For a record with 90 minutes and one goal the computation
returns a normal breakdown restricted to the six base categories, with
the Goals row silently defaulted to 0 points. -/
theorem C2_invalid_position_counterexample :
    ((build_points_contribution [recGoal] ("XYZ")).rows
      = [(("Minutes"), 2), (("Goals"), 0), (("Assists"), 0), (("Bonus"), 0),
         (("Cards"), 0), (("Own Goals"), 0)])
  ∧ (recGoal.goals_scored = 1)
  ∧ (goalPointsMap ("XYZ") = 0) := by
  decide

/-- Claim C2, amended: a position outside GK/DEF/MID/FWD raises no
error; the computation proceeds and returns a breakdown containing
exactly the six base categories, with the goal multiplier defaulted to 0
so the Goals row is 0 regardless of goals scored. -/
theorem C2_invalid_position_amended (records : List StatRecord) (position : String)
    (h1 : position ≠ "GK") (h2 : position ≠ "DEF") (h3 : position ≠ "MID")
    (h4 : position ≠ "FWD") :
    (cats (build_points_contribution records position) = baseCategories)
  ∧ (catPoints (build_points_contribution records position) ("Goals") = some 0)
  ∧ (goalPointsMap position = 0) := by
  have hall : allowedCategories position = baseCategories := by
    unfold allowedCategories
    rw [if_neg h1, if_neg h2, if_neg h3, if_neg h4]
  have hmap : goalPointsMap position = 0 := by
    unfold goalPointsMap
    rw [if_neg h1, if_neg h2, if_neg h3, if_neg h4]
  refine ⟨by rw [cats_build, hall], ?_, hmap⟩
  rw [catPoints_build, hall, if_pos (by decide)]
  have hraw : rawContrib position records ("Goals")
      = (records.map (goalsPoints position)).sum := by
    simp [rawContrib]
  rw [hraw]
  have hz : goalsPoints position = (fun _ : StatRecord => (0 : ℤ)) := by
    funext r
    simp [goalsPoints, hmap]
  rw [hz]
  simp

/-- Claim C2, witness for the amended theorem at position "XYZ". -/
theorem C2_invalid_position_amended_witness :
    (cats (build_points_contribution [recGoal] ("XYZ")) = baseCategories)
  ∧ (catPoints (build_points_contribution [recGoal] ("XYZ")) ("Goals") = some 0)
  ∧ (goalPointsMap ("XYZ") = 0) :=
  C2_invalid_position_amended [recGoal] ("XYZ") (by decide) (by decide) (by decide) (by decide)

/-- Claim C3, counterexample: two Forwards with identical single records
(one goal each) tie at 4 nonzero points in the Goals row (row index 1),
and BOTH sides receive the winner star — the claim says a nonzero tie
produces no marker for either side. -/
theorem C3_winner_marker_counterexample :
    (cellPoints (build_points_contribution [recGoal] ("FWD")) 1 = some 4)
  ∧ (star2 (build_points_contribution [recGoal] ("FWD"))
       (build_points_contribution [recGoal] ("FWD")) true 1 = true)
  ∧ (star2 (build_points_contribution [recGoal] ("FWD"))
       (build_points_contribution [recGoal] ("FWD")) false 1 = true) := by
  decide

/-- Claim C3, amended: a side's winner marker in a category appears
exactly when its points equal the row maximum and are nonzero.  Hence a
strictly greater nonzero side is the sole marked side, an equal nonzero
tie marks BOTH sides, and when the row maximum is 0 (including 0-0 ties
and a 0-over-negative win) no side is marked. -/
theorem C3_winner_marker_amended (a b : Breakdown) (r : ℕ) (x y : ℤ)
    (hx : cellPoints a r = some x) (hy : cellPoints b r = some y) :
    ((star2 a b true r = true) ↔ (y ≤ x ∧ x ≠ 0))
  ∧ ((star2 a b false r = true) ↔ (x ≤ y ∧ y ≠ 0)) := by
  have ht : star2 a b true r = (decide (x = max x y) && decide (x ≠ 0)) := by
    simp only [star2, rowMax2, cond_true, hx, hy]
  have hf : star2 a b false r = (decide (y = max x y) && decide (y ≠ 0)) := by
    simp only [star2, rowMax2, cond_false, hx, hy]
  constructor
  · rw [ht]
    simp only [Bool.and_eq_true, decide_eq_true_eq]
    constructor
    · rintro ⟨he, hne⟩
      exact ⟨max_eq_left_iff.mp he.symm, hne⟩
    · rintro ⟨hle, hne⟩
      exact ⟨(max_eq_left hle).symm, hne⟩
  · rw [hf]
    simp only [Bool.and_eq_true, decide_eq_true_eq]
    constructor
    · rintro ⟨he, hne⟩
      exact ⟨max_eq_right_iff.mp he.symm, hne⟩
    · rintro ⟨hle, hne⟩
      exact ⟨(max_eq_right hle).symm, hne⟩

/-- Claim C3, witness for the amended theorem: a Forward with one goal
versus an empty-history Forward in the Goals row. -/
theorem C3_winner_marker_amended_witness :
    ((star2 (build_points_contribution [recGoal] ("FWD"))
        (build_points_contribution [] ("FWD")) true 1 = true) ↔ ((0 : ℤ) ≤ 4 ∧ (4 : ℤ) ≠ 0))
  ∧ ((star2 (build_points_contribution [recGoal] ("FWD"))
        (build_points_contribution [] ("FWD")) false 1 = true) ↔ ((4 : ℤ) ≤ 0 ∧ (0 : ℤ) ≠ 0)) :=
  C3_winner_marker_amended (build_points_contribution [recGoal] ("FWD"))
    (build_points_contribution [] ("FWD")) 1 4 0 (by decide) (by decide)

/-- Claim C4, counterexample: a Defender with two records of one goal
conceded each.  The code floors per match before summing, giving
-(1/2) + -(1/2) = 0 points, while the claim's sum-first-then-divide rule
gives -((1+1)/2) = -1. -/
theorem C4_goals_conceded_counterexample :
    (catPoints (build_points_contribution [recConceded, recConceded] ("DEF"))
        ("Goals Conceded") = some 0)
  ∧ (-((((recConceded.goals_conceded + recConceded.goals_conceded) / 2 : ℕ)) : ℤ) = -1)
  ∧ (some (0 : ℤ) ≠ some (-1 : ℤ)) := by
  decide

/-- Claim C4, amended: for GK and DEF the Goals Conceded row equals the
sum over the window of the per-record value `-(conceded // 2)` — floor
division applied match-by-match BEFORE summing, not once on the summed
total; for MID and FWD no Goals Conceded category appears at all. -/
theorem C4_goals_conceded_amended (records : List StatRecord) :
    (catPoints (build_points_contribution records ("GK")) ("Goals Conceded")
        = some ((records.map (fun r => -((r.goals_conceded / 2 : ℕ) : ℤ))).sum))
  ∧ (catPoints (build_points_contribution records ("DEF")) ("Goals Conceded")
        = some ((records.map (fun r => -((r.goals_conceded / 2 : ℕ) : ℤ))).sum))
  ∧ (catPoints (build_points_contribution records ("MID")) ("Goals Conceded") = none)
  ∧ (catPoints (build_points_contribution records ("FWD")) ("Goals Conceded") = none) := by
  refine ⟨?_, ?_, ?_, ?_⟩
  · rw [catPoints_build, if_pos (by decide)]
    have hraw : rawContrib ("GK") records ("Goals Conceded")
        = (records.map (gcPoints ("GK"))).sum := by
      simp [rawContrib]
    rw [hraw, show gcPoints ("GK") = (fun r : StatRecord => -((r.goals_conceded / 2 : ℕ) : ℤ))
      from funext fun r => by simp [gcPoints]]
  · rw [catPoints_build, if_pos (by decide)]
    have hraw : rawContrib ("DEF") records ("Goals Conceded")
        = (records.map (gcPoints ("DEF"))).sum := by
      simp [rawContrib]
    rw [hraw, show gcPoints ("DEF") = (fun r : StatRecord => -((r.goals_conceded / 2 : ℕ) : ℤ))
      from funext fun r => by simp [gcPoints]]
  · rw [catPoints_build, if_neg (by decide)]
  · rw [catPoints_build, if_neg (by decide)]

/-- Claim C5, counterexample: comparing a GK breakdown (first) with a
DEF breakdown (second).  The comparison table's category column is
exactly the GK list, so the Defender's own category Defensive
Contribution is dropped (not unioned in); moreover row 8 is labelled
Saves, yet the Defender's positionally-fetched cell there is -2 — their
Penalty Misses points — while the Defender has no Saves row at all. -/
theorem C5_union_counterexample :
    (("Defensive Contribution") ∈ cats (build_points_contribution [recPenMiss] ("DEF")))
  ∧ (compareCats (build_points_contribution [] ("GK"))
        (build_points_contribution [recPenMiss] ("DEF")) = allowedCategories ("GK"))
  ∧ (("Defensive Contribution") ∉ compareCats (build_points_contribution [] ("GK"))
        (build_points_contribution [recPenMiss] ("DEF")))
  ∧ ((compareCats (build_points_contribution [] ("GK"))
        (build_points_contribution [recPenMiss] ("DEF")))[8]? = some ("Saves"))
  ∧ (cellPoints (build_points_contribution [recPenMiss] ("DEF")) 8 = some (-2))
  ∧ (catPoints (build_points_contribution [recPenMiss] ("DEF")) ("Saves") = none)
  ∧ (catPoints (build_points_contribution [recPenMiss] ("DEF")) ("Penalty Misses")
        = some (-2)) := by
  decide

/-- Claim C5, amended: the comparison table's category column is exactly
the FIRST player's category list (the second player's extra categories
are dropped and its cells are fetched by row position, misaligning
whenever the two lists differ); only the bar chart unions the category
sets, and there a category absent from a breakdown contributes 0. -/
theorem C5_union_amended (recsA recsB : List StatRecord) (posA posB : String) :
    (compareCats (build_points_contribution recsA posA)
        (build_points_contribution recsB posB) = allowedCategories posA)
  ∧ (∀ d ∈ [build_points_contribution recsA posA, build_points_contribution recsB posB],
       ∀ c ∈ cats d,
         c ∈ barCategories
           [build_points_contribution recsA posA, build_points_contribution recsB posB])
  ∧ (∀ c, c ∉ cats (build_points_contribution recsB posB) →
       barValue (build_points_contribution recsB posB) c = 0) := by
  refine ⟨cats_build recsA posA, ?_, ?_⟩
  · intro d hd c hc
    rw [barCategories, mem_sortStrings, List.mem_dedup, List.mem_flatten]
    exact ⟨cats d, List.mem_map_of_mem cats hd, hc⟩
  · intro c hc
    have hnone : catPoints (build_points_contribution recsB posB) c = none := by
      rw [catPoints_build, if_neg (by rwa [cats_build] at hc)]
    rw [catPoints] at hnone
    unfold barValue
    rw [hnone]

/-- Claim C5, witness for the amended theorem: the Defender-only
category survives into the bar chart's unioned axis, and the Defender's
bar value for the absent Saves category is 0. -/
theorem C5_union_amended_witness :
    (("Defensive Contribution") ∈ barCategories
        [build_points_contribution [] ("GK"), build_points_contribution [] ("DEF")])
  ∧ (barValue (build_points_contribution [] ("DEF")) ("Saves") = 0) :=
  ⟨(C5_union_amended [] [] ("GK") ("DEF")).2.1 (build_points_contribution [] ("DEF"))
      (by decide) ("Defensive Contribution") (by decide),
   (C5_union_amended [] [] ("GK") ("DEF")).2.2 ("Saves") (by decide)⟩

/-- Claim C6: for DEF the Defensive Contribution row is the sum over
records of exactly 2 points when that record's raw count is at least 10
and 0 otherwise; for MID and FWD the same with threshold 12; the cap is
applied match-by-match before summing (a Defender record with raw count
25 contributes exactly 2); GK breakdowns have no Defensive Contribution
category at all. -/
theorem C6_defensive_contribution (records : List StatRecord) :
    (catPoints (build_points_contribution records ("DEF")) ("Defensive Contribution")
        = some ((records.map
            (fun r => if 10 ≤ r.defensive_contribution then (2 : ℤ) else 0)).sum))
  ∧ (catPoints (build_points_contribution records ("MID")) ("Defensive Contribution")
        = some ((records.map
            (fun r => if 12 ≤ r.defensive_contribution then (2 : ℤ) else 0)).sum))
  ∧ (catPoints (build_points_contribution records ("FWD")) ("Defensive Contribution")
        = some ((records.map
            (fun r => if 12 ≤ r.defensive_contribution then (2 : ℤ) else 0)).sum))
  ∧ (catPoints (build_points_contribution records ("GK")) ("Defensive Contribution")
        = none) := by
  refine ⟨?_, ?_, ?_, ?_⟩
  · rw [catPoints_build, if_pos (by decide)]
    have hraw : rawContrib ("DEF") records ("Defensive Contribution")
        = (records.map (dcPoints ("DEF"))).sum := by
      simp [rawContrib]
    rw [hraw, show dcPoints ("DEF")
        = (fun r : StatRecord => if 10 ≤ r.defensive_contribution then (2 : ℤ) else 0)
      from funext dcPoints_DEF]
  · rw [catPoints_build, if_pos (by decide)]
    have hraw : rawContrib ("MID") records ("Defensive Contribution")
        = (records.map (dcPoints ("MID"))).sum := by
      simp [rawContrib]
    rw [hraw, show dcPoints ("MID")
        = (fun r : StatRecord => if 12 ≤ r.defensive_contribution then (2 : ℤ) else 0)
      from funext dcPoints_MID]
  · rw [catPoints_build, if_pos (by decide)]
    have hraw : rawContrib ("FWD") records ("Defensive Contribution")
        = (records.map (dcPoints ("FWD"))).sum := by
      simp [rawContrib]
    rw [hraw, show dcPoints ("FWD")
        = (fun r : StatRecord => if 12 ≤ r.defensive_contribution then (2 : ℤ) else 0)
      from funext dcPoints_FWD]
  · rw [catPoints_build, if_neg (by decide)]

/-- Claim C7: over any filtered gameweek window, a week's value is
flagged exactly when its z-score — deviation from the population mean
divided by the population standard deviation (divisor N, the real square
root of `popVar`) — is at least 1.5; a zero variance (all weeks equal)
yields no flag, and a week with z-score at most -1.5 is never
flagged. -/
theorem C7_outlier_flag (hist : List StatRecord) (gw1 gw2 : ℤ) (xs : List ℤ) (x : ℤ)
    (_hxs : xs = gwPoints hist gw1 gw2) (_hx : x ∈ xs) :
    ((highOutlierFlag xs x = true) ↔ zScoreTest xs x)
  ∧ (popVar xs = 0 → highOutlierFlag xs x = false)
  ∧ (lowZScore xs x → highOutlierFlag xs x = false) := by
  have hv : (0 : ℚ) ≤ popVar xs := popVar_nonneg xs
  have hvR : (0 : ℝ) ≤ ((popVar xs : ℚ) : ℝ) := by exact_mod_cast hv
  have hmain : (highOutlierFlag xs x = true) ↔ zScoreTest xs x := by
    unfold zScoreTest
    rw [z_test_iff _ _ hvR]
    unfold highOutlierFlag
    simp only [Bool.and_eq_true, decide_eq_true_eq]
    constructor
    · rintro ⟨⟨h1, h2⟩, h3⟩
      refine ⟨by exact_mod_cast h1, ?_, ?_⟩
      · exact_mod_cast sub_nonneg.mpr h2
      · exact_mod_cast h3
    · rintro ⟨h1, h2, h3⟩
      refine ⟨⟨by exact_mod_cast h1, ?_⟩, ?_⟩
      · have hq : (0 : ℚ) ≤ (x : ℚ) - popMean xs := by exact_mod_cast h2
        linarith
      · exact_mod_cast h3
  refine ⟨hmain, ?_, ?_⟩
  · intro h0
    simp [highOutlierFlag, h0]
  · intro hlz
    rcases Bool.eq_false_or_eq_true (highOutlierFlag xs x) with hb | hb
    · exfalso
      have hz := hmain.mp hb
      unfold zScoreTest at hz
      unfold lowZScore at hlz
      by_cases hs : Real.sqrt ((popVar xs : ℚ) : ℝ) = 0
      · rw [if_pos hs] at hz
        linarith
      · rw [if_neg hs] at hz
        linarith
    · exact hb

/-- Claim C7, witness: the spec's example window with weekly totals
2, 2, 2, 2, 20 over gameweeks 1-5, instantiated at the 20-point week. -/
theorem C7_outlier_flag_witness :
    ([(2 : ℤ), 2, 2, 2, 20] = gwPoints outlierHist 1 5)
  ∧ ((20 : ℤ) ∈ [(2 : ℤ), 2, 2, 2, 20])
  ∧ (((highOutlierFlag [(2 : ℤ), 2, 2, 2, 20] 20 = true)
        ↔ zScoreTest [(2 : ℤ), 2, 2, 2, 20] 20)
      ∧ (popVar [(2 : ℤ), 2, 2, 2, 20] = 0
          → highOutlierFlag [(2 : ℤ), 2, 2, 2, 20] 20 = false)
      ∧ (lowZScore [(2 : ℤ), 2, 2, 2, 20] 20
          → highOutlierFlag [(2 : ℤ), 2, 2, 2, 20] 20 = false)) :=
  ⟨by decide, by decide,
   C7_outlier_flag outlierHist 1 5 [(2 : ℤ), 2, 2, 2, 20] 20 (by decide) (by decide)⟩

/-- Claim C8: the Category Breakdown contains exactly the categories of
the position's allowed list and no others; in particular a Forward's
breakdown never contains Saves or Clean Sheets, and no position other
than GK ever has Saves or Penalty Saves. -/
theorem C8_eligibility (records : List StatRecord) (position : String) :
    (cats (build_points_contribution records position) = allowedCategories position)
  ∧ (("Saves") ∉ cats (build_points_contribution records ("FWD")))
  ∧ (("Clean Sheets") ∉ cats (build_points_contribution records ("FWD")))
  ∧ (position ≠ "GK" →
       (("Saves") ∉ cats (build_points_contribution records position))
       ∧ (("Penalty Saves") ∉ cats (build_points_contribution records position))) := by
  refine ⟨cats_build records position, ?_, ?_, ?_⟩
  · rw [cats_build]
    decide
  · rw [cats_build]
    decide
  · intro h
    constructor
    · rw [cats_build]
      exact (saves_not_mem position h).1
    · rw [cats_build]
      exact (saves_not_mem position h).2

/-- Claim C8, witness instantiated at a Midfielder. -/
theorem C8_eligibility_witness :
    (("Saves") ∉ cats (build_points_contribution [recGoal] ("MID")))
  ∧ (("Penalty Saves") ∉ cats (build_points_contribution [recGoal] ("MID"))) :=
  (C8_eligibility [recGoal] ("MID")).2.2.2 (by decide)

/-- Claim C9, counterexample: a Forward week with a yellow card and
authoritative total -1.  The Cards row holds -1 points; the claimed
formula gives -1 / -1 * 100 = 100.0, but the code's `total > 0` guard
emits 0.0 — so for a nonzero (negative) total the percentage is NOT
points / total * 100. -/
theorem C9_percentage_counterexample :
    ((build_points_contribution [recCard] ("FWD")).total = -1)
  ∧ (catPoints (build_points_contribution [recCard] ("FWD")) ("Cards") = some (-1))
  ∧ (catPct (build_points_contribution [recCard] ("FWD")) ("Cards") = some 0)
  ∧ (round1 (((-1 : ℤ) : ℚ) / ((-1 : ℤ) : ℚ) * 100) = 100)
  ∧ ((0 : ℚ) ≠ 100) := by
  refine ⟨by decide, by decide, by decide, ?_, by norm_num⟩
  have h1 : (((-1 : ℤ) : ℚ) / ((-1 : ℤ) : ℚ) * 100) = 100 := by norm_num
  rw [h1]
  unfold round1
  rw [round_eq]
  norm_num

/-- Claim C9, amended: when the authoritative total is strictly positive
each category's percentage is points / total * 100 rounded to one
decimal, and when the total is zero OR NEGATIVE the percentage is 0 for
every category (so no division by zero or by a negative total is ever
performed). -/
theorem C9_percentage_amended (records : List StatRecord) (position c : String) (p : ℤ)
    (hp : catPoints (build_points_contribution records position) c = some p) :
    (0 < totalPoints records →
       catPct (build_points_contribution records position) c
         = some (round1 ((p : ℚ) / ((totalPoints records : ℤ) : ℚ) * 100)))
  ∧ (totalPoints records ≤ 0 →
       catPct (build_points_contribution records position) c = some 0) := by
  rw [catPoints_build] at hp
  by_cases hc : c ∈ allowedCategories position
  · rw [if_pos hc] at hp
    have hpe : rawContrib position records c = p := Option.some_inj.mp hp
    constructor
    · intro ht
      rw [catPct_build, if_pos hc, if_pos ht, hpe]
    · intro ht
      rw [catPct_build, if_pos hc, if_neg (not_lt.mpr ht)]
  · rw [if_neg hc] at hp
    exact absurd hp (by simp)

/-- Claim C9, witness for the amended theorem: a Forward week with total
10 and one yellow card; the Cards percentage is round1(-10) = -10. -/
theorem C9_percentage_amended_witness :
    catPct (build_points_contribution [recCardTen] ("FWD")) ("Cards")
      = some (round1 (((-1 : ℤ) : ℚ) / ((totalPoints [recCardTen] : ℤ) : ℚ) * 100)) :=
  (C9_percentage_amended [recCardTen] ("FWD") ("Cards") (-1) (by decide)).1 (by decide)

/-- Claim C10: the percentage guards test `total > 0`, not `total != 0`:
a strictly negative authoritative total makes every category percentage
0, and a strictly negative window total makes every per-gameweek share
0 — no percentage is ever computed against a non-positive denominator. -/
theorem C10_nonpositive_total_pcts (records : List StatRecord) (position : String)
    (hist : List StatRecord) (gw1 gw2 : ℤ) :
    (totalPoints records < 0 →
       ∀ q ∈ (build_points_contribution records position).pcts, q = 0)
  ∧ ((gwPoints hist gw1 gw2).sum < 0 →
       ∀ q ∈ gwPcts hist gw1 gw2, q = 0) := by
  constructor
  · intro h q hq
    rw [build_pcts] at hq
    simp only [List.mem_map] at hq
    obtain ⟨c, _, rfl⟩ := hq
    rw [if_neg (by linarith)]
  · intro h q hq
    simp only [gwPcts] at hq
    rw [if_neg (not_lt.mpr (le_of_lt h))] at hq
    simp only [List.mem_map] at hq
    obtain ⟨y, _, rfl⟩ := hq
    rfl

/-- Claim C10, witness: a single week with authoritative total -2. -/
theorem C10_nonpositive_total_pcts_witness :
    (totalPoints [recNegTotal] < 0)
  ∧ (∀ q ∈ (build_points_contribution [recNegTotal] ("FWD")).pcts, q = 0)
  ∧ ((gwPoints [recNegTotal] 1 1).sum < 0)
  ∧ (∀ q ∈ gwPcts [recNegTotal] 1 1, q = 0) :=
  ⟨by decide,
   (C10_nonpositive_total_pcts [recNegTotal] ("FWD") [recNegTotal] 1 1).1 (by decide),
   by decide,
   (C10_nonpositive_total_pcts [recNegTotal] ("FWD") [recNegTotal] 1 1).2 (by decide)⟩

end FPL
